import Mathlib

/-
Verification development for the Zebpay connector of the hummingbot repository.

Shallow embedding conventions:
  * Python `Decimal` values are modelled as `ℚ` (the code only adds, multiplies and
    compares decimals, all of which are exact in `ℚ`).
  * Python dictionaries holding in-flight orders are modelled as association lists
    `List (String × ZebpayInFlightOrder)` with the usual lookup / set / delete operations.
  * Fallible code is modelled with explicit raised-exception results.  Python exception
    classes are modelled by `PyClass` together with the subclass relation used by
    `except` clauses.  Under Python >= 3.8 (the interpreter hummingbot targets),
    `asyncio.CancelledError` derives directly from `BaseException`, not `Exception`,
    which is what the `except Exception` clauses below rely on.
  * Message dictionaries with optional keys are modelled as structures of `Option`
    fields; `m["k"] if "k" in m else m.get("k2")` becomes a first-`some` choice.
-/

/-- Python exception classes appearing in the connector code paths. -/
inductive PyClass where
  | baseException
  | exception
  | cancelledError
  | ioError
  | valueError
  | attributeError
  | keyError
  | nameError
  | typeError
  | invalidOperation
  deriving DecidableEq, BEq

/-- The superclass chain of each modelled Python exception class (the class itself
included).  `asyncio.CancelledError` derives directly from `BaseException` in
Python 3.8+, so it is not an `Exception`. -/
def PyClass.ancestors : PyClass → List PyClass
  | .baseException => [.baseException]
  | .exception => [.exception, .baseException]
  | .cancelledError => [.cancelledError, .baseException]
  | .ioError => [.ioError, .exception, .baseException]
  | .valueError => [.valueError, .exception, .baseException]
  | .attributeError => [.attributeError, .exception, .baseException]
  | .keyError => [.keyError, .exception, .baseException]
  | .nameError => [.nameError, .exception, .baseException]
  | .typeError => [.typeError, .exception, .baseException]
  | .invalidOperation => [.invalidOperation, .exception, .baseException]

/-- `isInstance c t` holds when an exception of class `c` is caught by an
`except t` clause. -/
def PyClass.isInstance (c t : PyClass) : Bool := c.ancestors.contains t

/-- A raised Python exception: its class and its `str(e)` text. -/
structure PyExc where
  cls : PyClass
  msg : String
  deriving DecidableEq

/-- Char-list matching helper: `leadMatch p l` holds when `p` is an initial
segment of `l`. -/
def leadMatch : List Char → List Char → Bool
  | [], _ => true
  | _ :: _, [] => false
  | p :: ps, c :: cs => p == c && leadMatch ps cs

/-- Substring test on char lists. -/
def hasSubAux (pat : List Char) : List Char → Bool
  | [] => leadMatch pat []
  | c :: cs => leadMatch pat (c :: cs) || hasSubAux pat cs

/-- `hasSub pat s` models Python `pat in s` on strings. -/
def hasSub (pat s : String) : Bool := hasSubAux pat.data s.data

/-- Models Python `s.lower()` for the ASCII messages built by the connector. -/
def lowerStr (s : String) : String := String.mk (s.data.map Char.toLower)

/-- Order types supported by the host framework.
Modelled from the spec: `OrderType` (with `is_limit_type` true exactly for the
limit variants) lives in `hummingbot/core/event/events.py`, which is not under
`src/`; the spec (§4.1, §6) only distinguishes limit orders from market orders. -/
inductive OrderType where
  | LIMIT
  | LIMIT_MAKER
  | MARKET
  deriving DecidableEq, BEq

/-- Modelled from the spec: `OrderType.is_limit_type` of the host framework is
true for `LIMIT` and `LIMIT_MAKER` only. -/
def OrderType.is_limit_type : OrderType → Bool
  | .LIMIT => true
  | .LIMIT_MAKER => true
  | .MARKET => false

/-- Trade sides. Modelled from the spec: `TradeType` of the host framework is
an enum with `BUY = 1` and `SELL = 2`. -/
inductive TradeType where
  | BUY
  | SELL
  deriving DecidableEq, BEq

/-- Modelled from the spec: the numeric `value` of the host `TradeType` enum. -/
def TradeType.value : TradeType → Nat
  | .BUY => 1
  | .SELL => 2

/-- `ZebpayInFlightOrder` state (src/hummingbot/connector/exchange/zebpay/
zebpay_in_flight_order.py).  `fill_id_set` is the set of already-applied fill
identifiers (a Python `set`, modelled as a duplicate-free list); an id read via
`fill_update.get("i")` can be `None`, hence `Option String` elements.
`cancelled_event_set` models the `asyncio.Event` flag. -/
structure ZebpayInFlightOrder where
  client_order_id : String
  exchange_order_id : Option String
  trading_pair : String
  order_type : OrderType
  trade_type : TradeType
  price : ℚ
  amount : ℚ
  executed_amount_base : ℚ
  executed_amount_quote : ℚ
  fee_asset : Option String
  fee_paid : ℚ
  last_state : Option String
  fill_id_set : List (Option String)
  cancelled_event_set : Bool
  deriving DecidableEq

/-- `ZebpayInFlightOrder.__init__`: the constructor records the identifiers and
requested price/amount and starts with no fills applied (`fill_id_set = set()`).
The executed/fee fields come from the base-class initializer.
Modelled from the spec for the base-class part: `InFlightOrderBase.__init__` is
not under `src/`; per the spec (§3, InFlightOrder) cumulative executed base and
quote amounts and the fee paid start at zero, with no fee asset yet. -/
def ZebpayInFlightOrder.init (client_order_id : String) (exchange_order_id : Option String)
    (trading_pair : String) (order_type : OrderType) (trade_type : TradeType)
    (price amount : ℚ) (initial_state : Option String) : ZebpayInFlightOrder :=
  { client_order_id := client_order_id
    exchange_order_id := exchange_order_id
    trading_pair := trading_pair
    order_type := order_type
    trade_type := trade_type
    price := price
    amount := amount
    executed_amount_base := 0
    executed_amount_quote := 0
    fee_asset := none
    fee_paid := 0
    last_state := initial_state
    fill_id_set := []
    cancelled_event_set := false }

/-- `is_done` (zebpay_in_flight_order.py line 46):
`self.last_state in {"filled", "canceled", "rejected"}`. -/
def ZebpayInFlightOrder.is_done (o : ZebpayInFlightOrder) : Bool :=
  o.last_state == some "filled" || o.last_state == some "canceled"
    || o.last_state == some "rejected"

/-- `is_failure` (line 51): `self.last_state in {"rejected",}`. -/
def ZebpayInFlightOrder.is_failure (o : ZebpayInFlightOrder) : Bool :=
  o.last_state == some "rejected"

/-- `is_cancelled` (line 55): `self.last_state in {"cancelled"}` (note the
double-l spelling, unlike the "canceled" recognized by `is_done`). -/
def ZebpayInFlightOrder.is_cancelled (o : ZebpayInFlightOrder) : Bool :=
  o.last_state == some "cancelled"

/-- A fill-update dictionary as consumed by `update_with_fill_update` and
`_process_fill_message`: each short key may be absent, and each long-name
alternative may be absent, mirroring
`fill_update["q"] if "q" in fill_update else fill_update.get("quantity")`. -/
structure FillMsg where
  i : Option String
  q : Option ℚ
  quantity : Option ℚ
  p : Option ℚ
  price : Option ℚ
  f : Option ℚ
  fee : Option ℚ
  a : Option String
  feeAsset : Option String
  deriving DecidableEq

/-- `fill_update["q"] if "q" in fill_update else fill_update.get("quantity")`. -/
def FillMsg.getQ (m : FillMsg) : Option ℚ := if m.q.isSome then m.q else m.quantity

/-- `fill_update["p"] if "p" in fill_update else fill_update.get("price")`. -/
def FillMsg.getP (m : FillMsg) : Option ℚ := if m.p.isSome then m.p else m.price

/-- `fill_update["f"] if "f" in fill_update else fill_update.get("fee")`. -/
def FillMsg.getF (m : FillMsg) : Option ℚ := if m.f.isSome then m.f else m.fee

/-- `fill_update["a"] if "a" in fill_update else fill_update.get("feeAsset")`. -/
def FillMsg.getA (m : FillMsg) : Option String := if m.a.isSome then m.a else m.feeAsset

/-- Python truthiness of `self.fee_asset` (`if not self.fee_asset:`): falsy when
`None` or the empty string. -/
def feeAssetFalsy : Option String → Bool
  | none => true
  | some s => s == ""

/-- `update_with_fill_update` (zebpay_in_flight_order.py lines 80-100).
Returns the updated order together with `some b` for a normal return of `b`, or
`none` when a missing amount field makes `Decimal(str(None))` raise; the order
component carries the mutations performed before the raise (the fill id is
recorded before any amount is touched, and the base/fee/quote fields are updated
in source order). -/
def ZebpayInFlightOrder.update_with_fill_update (o : ZebpayInFlightOrder) (m : FillMsg) :
    ZebpayInFlightOrder × Option Bool :=
  let fill_id := m.i
  if fill_id ∈ o.fill_id_set then
    (o, some false)
  else
    let o1 := { o with fill_id_set := fill_id :: o.fill_id_set }
    match m.getQ with
    | none => (o1, none)
    | some q =>
      let o2 := { o1 with executed_amount_base := o1.executed_amount_base + q }
      match m.getF with
      | none => (o2, none)
      | some f =>
        let o3 := { o2 with fee_paid := o2.fee_paid + f }
        match m.getP with
        | none => (o3, none)
        | some p =>
          let o4 := { o3 with executed_amount_quote := o3.executed_amount_quote + p * q }
          let o5 := if feeAssetFalsy o4.fee_asset then { o4 with fee_asset := m.getA } else o4
          (o5, some true)

/-- C2: replaying an already-seen fill id is a no-op that returns `False`; a
previously-unseen fill id is recorded and the cumulative executed base amount
grows by exactly the fill quantity (strictly, whenever the quantity is positive),
the executed quote amount by price times quantity, and the fee paid by the fee,
with the call returning `True`. -/
theorem C2_update_with_fill_update_dedup_and_accumulate
    (o : ZebpayInFlightOrder) (m : FillMsg) (q p f : ℚ)
    (hq : m.getQ = some q) (hp : m.getP = some p) (hf : m.getF = some f) :
    (m.i ∈ o.fill_id_set →
      o.update_with_fill_update m = (o, some false)) ∧
    (m.i ∉ o.fill_id_set →
      (o.update_with_fill_update m).2 = some true ∧
      m.i ∈ (o.update_with_fill_update m).1.fill_id_set ∧
      (o.update_with_fill_update m).1.executed_amount_base = o.executed_amount_base + q ∧
      (o.update_with_fill_update m).1.executed_amount_quote = o.executed_amount_quote + p * q ∧
      (o.update_with_fill_update m).1.fee_paid = o.fee_paid + f ∧
      (0 < q → o.executed_amount_base < (o.update_with_fill_update m).1.executed_amount_base)) := by
  constructor
  · intro hmem
    simp [ZebpayInFlightOrder.update_with_fill_update, hmem]
  · intro hmem
    simp only [ZebpayInFlightOrder.update_with_fill_update, hmem, if_neg, hq, hp, hf]
    by_cases hfa : feeAssetFalsy o.fee_asset
    · simp [hfa]
    · simp [hfa]

/-- C2 witness: a concrete unseen fill of quantity 4 at price 2 with fee 1 is
applied once (executed base 0 → 4, quote 0 → 8, fee 0 → 1, returns `True`). -/
theorem C2_update_with_fill_update_witness :
    letI o := ZebpayInFlightOrder.init "HBOT-B-BTC-AUD-1" (some "e1") "BTC-AUD"
      OrderType.LIMIT TradeType.BUY 2 10 (some "open")
    letI m : FillMsg := ⟨some "f1", some 4, none, some 2, none, some 1, none, some "AUD", none⟩
    (o.update_with_fill_update m).2 = some true ∧
      (o.update_with_fill_update m).1.executed_amount_base = 0 + 4 := by
  refine ⟨?_, ?_⟩ <;> {
    have h := C2_update_with_fill_update_dedup_and_accumulate
      (ZebpayInFlightOrder.init "HBOT-B-BTC-AUD-1" (some "e1") "BTC-AUD"
        OrderType.LIMIT TradeType.BUY 2 10 (some "open"))
      ⟨some "f1", some 4, none, some 2, none, some 1, none, some "AUD", none⟩
      4 2 1 (by decide) (by decide) (by decide)
    have h2 := h.2 (by decide)
    simp only at h2
    first
      | exact h2.1
      | exact h2.2.2.1
  }

/-- The in-flight order table `self._in_flight_orders` (a Python dict keyed by
client order id), modelled as an association list with unique keys. -/
abbrev OrderTable := List (String × ZebpayInFlightOrder)

/-- Dictionary lookup `self._in_flight_orders.get(k)`. -/
def lookupOrder : OrderTable → String → Option ZebpayInFlightOrder
  | [], _ => none
  | kv :: rest, k => if kv.1 == k then some kv.2 else lookupOrder rest k

/-- Dictionary assignment `self._in_flight_orders[k] = o`. -/
def setOrder : OrderTable → String → ZebpayInFlightOrder → OrderTable
  | [], k, o => [(k, o)]
  | kv :: rest, k, o => if kv.1 == k then (k, o) :: rest else kv :: setOrder rest k o

/-- `stop_tracking_order` (zebpay_exchange.py lines 638-644): deletes the key
when present, otherwise does nothing (a delete of an absent key leaves the
table unchanged, which `List.filter` also does). -/
def stop_tracking_order (tbl : OrderTable) (order_id : String) : OrderTable :=
  tbl.filter (fun kv => kv.1 != order_id)

theorem lookupOrder_stop_tracking (tbl : OrderTable) (k : String) :
    lookupOrder (stop_tracking_order tbl k) k = none := by
  induction tbl with
  | nil => rfl
  | cons kv rest ih =>
    by_cases h : kv.1 = k
    · simpa [stop_tracking_order, h] using ih
    · simpa [stop_tracking_order, lookupOrder, h] using ih

theorem lookupOrder_stop_tracking_absent (tbl : OrderTable) (k : String)
    (h : lookupOrder tbl k = none) : stop_tracking_order tbl k = tbl := by
  induction tbl with
  | nil => rfl
  | cons kv rest ih =>
    by_cases hk : kv.1 = k
    · simp [lookupOrder, hk] at h
    · simp only [lookupOrder, hk] at h
      simp [stop_tracking_order, hk] at ih ⊢
      exact ih (by simpa [hk] using h)

/-- Lifecycle events published through `trigger_event`, with the payload fields
the claims mention. -/
inductive MarketEvt where
  | orderCancelled (timestamp : ℚ) (client_order_id : String) (exchange_order_id : Option String)
  | orderFailure (timestamp : ℚ) (client_order_id : String) (order_type : OrderType)
  | orderFilled (timestamp : ℚ) (client_order_id : String) (price amount : ℚ)
  | orderCreated (isBuy : Bool) (timestamp : ℚ) (client_order_id : String)
  | orderCompleted (isBuy : Bool) (timestamp : ℚ) (client_order_id : String)
      (executed_base executed_quote fee : ℚ)
  deriving DecidableEq

/-- Python `str(x)` on an optional string field interpolated into an f-string. -/
def pyStr : Option String → String
  | none => "None"
  | some s => s

/-- Outcome of the awaited `self.delete_order(exchange_order_id)` call inside
`_execute_cancel`: a parsed JSON response (whose `statusDescription` key may be
absent) or a raised exception (`IOError` from `_api_request`, or a task
cancellation). -/
inductive DeleteOutcome where
  | ok (statusDescription : Option String)
  | raised (e : PyExc)
  deriving DecidableEq

/-- Result of a `_execute_cancel` run: final in-flight table, events emitted,
whether the exchange delete call was issued, and the Python-level outcome
(`Except.ok (some cid)` = returned `client_order_id`, `Except.ok none` =
fell through returning `None`, `Except.error e` = exception `e` escapes). -/
structure CancelResult where
  table : OrderTable
  events : List MarketEvt
  issuedDelete : Bool
  outcome : Except PyExc (Option String)

/-- The `except` chain of `_execute_cancel` (zebpay_exchange.py lines 422-449)
applied to an exception `e` raised by the try body.  The `except IOError`
branch whose message mentions "order not found" stops tracking and then builds
an `OrderCancelledEvent` from `tracked_order.exchange_order_id`; when
`tracked_order` is `None` (unknown client id) that attribute access itself
raises `AttributeError`, which propagates out of the handler uncaught (the
later `except` clauses of the same `try` do not apply to it).  `except
asyncio.CancelledError` re-raises; `except Exception` logs and falls through
(returning `None`). -/
def cancelHandleRaised (tbl : OrderTable) (now : ℚ) (coid : String)
    (tracked : Option ZebpayInFlightOrder) (issued : Bool) (e : PyExc) : CancelResult :=
  if e.cls.isInstance .ioError then
    if hasSub "order not found" (lowerStr e.msg) then
      let tbl2 := stop_tracking_order tbl coid
      match tracked with
      | none =>
        { table := tbl2, events := [], issuedDelete := issued,
          outcome := .error ⟨.attributeError,
            "NoneType object has no attribute exchange_order_id"⟩ }
      | some t =>
        { table := tbl2, events := [.orderCancelled now coid t.exchange_order_id],
          issuedDelete := issued, outcome := .ok (some coid) }
    else
      { table := tbl, events := [], issuedDelete := issued, outcome := .error e }
  else if e.cls.isInstance .cancelledError then
    { table := tbl, events := [], issuedDelete := issued, outcome := .error e }
  else if e.cls.isInstance .exception then
    { table := tbl, events := [], issuedDelete := issued, outcome := .ok none }
  else
    { table := tbl, events := [], issuedDelete := issued, outcome := .error e }

/-- `_execute_cancel` (zebpay_exchange.py lines 387-449).  The try body:
an unknown client order id raises `IOError("Failed to cancel order - {id}:
order not found.")`; for a tracked order the exchange delete call is awaited
(`del` is its outcome); a response whose `statusDescription` is `"success"`
stops tracking, emits one `OrderCancelled` event, sets the order's cancelled
event and returns the client id; any other response raises an `IOError` whose
text (note the missing space, "wasunsuccessful") does not normally contain
"order not found". -/
def _execute_cancel (tbl : OrderTable) (now : ℚ) (coid : String)
    (del : DeleteOutcome) : CancelResult :=
  match lookupOrder tbl coid with
  | none =>
    cancelHandleRaised tbl now coid none false
      ⟨.ioError, "Failed to cancel order - " ++ coid ++ ": order not found."⟩
  | some tord =>
    match del with
    | .raised e => cancelHandleRaised tbl now coid (some tord) true e
    | .ok sd =>
      match sd with
      | none =>
        cancelHandleRaised tbl now coid (some tord) true ⟨.keyError, "statusDescription"⟩
      | some s =>
        if s == "success" then
          { table := stop_tracking_order tbl coid,
            events := [.orderCancelled now coid tord.exchange_order_id],
            issuedDelete := true, outcome := .ok (some coid) }
        else
          cancelHandleRaised tbl now coid (some tord) true
            ⟨.ioError, "delete_order(" ++ coid ++ ") tracked with exchange id: "
              ++ pyStr tord.exchange_order_id ++ " wasunsuccessful."⟩

/-- C3: cancelling a client order id that is not in the in-flight table never
issues a delete-order request, but it does NOT complete successfully: the
"order not found" handler evaluates `tracked_order.exchange_order_id` with
`tracked_order = None`, so an `AttributeError` escapes to the caller and no
cancelled event is emitted.  Evaluated at the concrete failing input
(an empty order table and client id "HBOT-B-BTC-AUD-1"). -/
theorem C3_cancel_unknown_order_raises_attribute_error :
    (_execute_cancel [] 100 "HBOT-B-BTC-AUD-1" (.ok (some "success"))).issuedDelete = false ∧
    (_execute_cancel [] 100 "HBOT-B-BTC-AUD-1" (.ok (some "success"))).events = [] ∧
    (_execute_cancel [] 100 "HBOT-B-BTC-AUD-1" (.ok (some "success"))).outcome =
      .error ⟨.attributeError, "NoneType object has no attribute exchange_order_id"⟩ :=
  ⟨rfl, rfl, rfl⟩

/-- C4: for a tracked order whose exchange delete call raises an `IOError`
mentioning "order not found" (case-insensitively), `_execute_cancel` stops
tracking the order, emits exactly one `OrderCancelled` event, and returns the
client order id without any exception escaping. -/
theorem C4_cancel_known_order_not_found_is_success (tbl : OrderTable) (now : ℚ)
    (coid : String) (tord : ZebpayInFlightOrder) (msg : String)
    (htr : lookupOrder tbl coid = some tord)
    (hnf : hasSub "order not found" (lowerStr msg) = true) :
    (_execute_cancel tbl now coid (.raised ⟨.ioError, msg⟩)).outcome = .ok (some coid) ∧
    (_execute_cancel tbl now coid (.raised ⟨.ioError, msg⟩)).events =
      [.orderCancelled now coid tord.exchange_order_id] ∧
    lookupOrder (_execute_cancel tbl now coid (.raised ⟨.ioError, msg⟩)).table coid = none := by
  have hio : PyClass.isInstance PyClass.ioError PyClass.ioError = true := rfl
  have hres : _execute_cancel tbl now coid (.raised ⟨.ioError, msg⟩) =
      { table := stop_tracking_order tbl coid,
        events := [.orderCancelled now coid tord.exchange_order_id],
        issuedDelete := true, outcome := .ok (some coid) } := by
    simp only [_execute_cancel, htr, cancelHandleRaised, hio, hnf, if_true]
  rw [hres]
  exact ⟨rfl, rfl, lookupOrder_stop_tracking tbl coid⟩

/-- C4 witness: a concrete tracked order whose delete call fails with
`IOError("Order Not Found")` is cancelled successfully. -/
theorem C4_cancel_known_order_not_found_witness :
    letI o := ZebpayInFlightOrder.init "HBOT-S-BTC-AUD-2" (some "ex42") "BTC-AUD"
      OrderType.LIMIT TradeType.SELL 5 1 (some "open")
    (_execute_cancel [("HBOT-S-BTC-AUD-2", o)] 7 "HBOT-S-BTC-AUD-2"
        (.raised ⟨.ioError, "Order Not Found"⟩)).outcome = .ok (some "HBOT-S-BTC-AUD-2") ∧
    (_execute_cancel [("HBOT-S-BTC-AUD-2", o)] 7 "HBOT-S-BTC-AUD-2"
        (.raised ⟨.ioError, "Order Not Found"⟩)).events =
      [.orderCancelled 7 "HBOT-S-BTC-AUD-2" (some "ex42")] := by
  have h := C4_cancel_known_order_not_found_is_success
    [("HBOT-S-BTC-AUD-2", ZebpayInFlightOrder.init "HBOT-S-BTC-AUD-2" (some "ex42") "BTC-AUD"
      OrderType.LIMIT TradeType.SELL 5 1 (some "open"))] 7 "HBOT-S-BTC-AUD-2"
    (ZebpayInFlightOrder.init "HBOT-S-BTC-AUD-2" (some "ex42") "BTC-AUD"
      OrderType.LIMIT TradeType.SELL 5 1 (some "open"))
    "Order Not Found" (by rfl) (by rfl)
  exact ⟨h.1, h.2.1⟩

theorem lookupOrder_setOrder (tbl : OrderTable) (k : String) (v : ZebpayInFlightOrder) :
    lookupOrder (setOrder tbl k v) k = some v := by
  induction tbl with
  | nil => simp [setOrder, lookupOrder]
  | cons kv rest ih =>
    by_cases h : kv.1 = k
    · simp [setOrder, lookupOrder, h]
    · simp [setOrder, lookupOrder, h, ih]

/-- Trading rule for one pair.  Modelled from the spec: the `TradingRule` class
is host-framework code not under `src/`; `_format_trading_rules`
(zebpay_exchange.py lines 289-302) populates exactly these fields. -/
structure TradingRule where
  trading_pair : String
  min_order_size : ℚ
  max_order_size : ℚ
  min_price_increment : ℚ
  min_base_amount_increment : ℚ
  deriving DecidableEq

/-- `self._trading_rules` dictionary. -/
abbrev RuleTable := List (String × TradingRule)

/-- Dictionary lookup in `self._trading_rules`. -/
def lookupRule : RuleTable → String → Option TradingRule
  | [], _ => none
  | kv :: rest, k => if kv.1 == k then some kv.2 else lookupRule rest k

/-- Outcome of the awaited `self._api_request("post", url, api_params, True)`
call inside `_create_order`: the parsed response (whose `id` key may be
absent, `order_result.get("id")`) or a raised exception. -/
inductive CreateApiOutcome where
  | ok (orderId : Option String)
  | raised (e : PyExc)
  deriving DecidableEq

/-- Result of the try body of `_create_order`: table/events produced so far,
whether the create HTTP request was issued, and the exception the body raised,
if any. -/
structure CreateBodyRes where
  table : OrderTable
  events : List MarketEvt
  issuedHttp : Bool
  raised : Option PyExc

/-- The try body of `_create_order` (zebpay_exchange.py lines 538-593).
Numeric f-string interpolation in exception messages is elided; the
distinctive message text is kept.  Note two faithful oddities of the source:
the maximum-size guard is written `amount < trading_rule.max_order_size`
(line 551), and the sell branch assigns `trade_type = "ask"` instead of
binding `trade_side` (line 558), so a sell order that passes the size guards
raises `NameError` at the `api_params` construction before any HTTP request. -/
def _create_order_body (rules : RuleTable) (tbl : OrderTable) (now : ℚ)
    (trade_type : TradeType) (coid pair : String) (amount0 : ℚ) (order_type : OrderType)
    (price0 : ℚ) (quantAmount quantPrice : ℚ → ℚ) (api : CreateApiOutcome) : CreateBodyRes :=
  if !order_type.is_limit_type then
    ⟨tbl, [], false, some ⟨.exception, "Unsupported order type"⟩⟩
  else
    match lookupRule rules pair with
    | none => ⟨tbl, [], false, some ⟨.keyError, pair⟩⟩
    | some trading_rule =>
      let amount := quantAmount amount0
      let price := quantPrice price0
      if amount < trading_rule.min_order_size then
        ⟨tbl, [], false, some ⟨.valueError, "Buy order amount is lower than the minimum order size"⟩⟩
      else if amount < trading_rule.max_order_size then
        ⟨tbl, [], false, some ⟨.valueError, "Buy order amount is higher than the maximum order size"⟩⟩
      else
        if trade_type.value == 1 then
          match api with
          | .raised e => ⟨tbl, [], true, some e⟩
          | .ok exchange_order_id =>
            let o := ZebpayInFlightOrder.init coid exchange_order_id pair order_type
              trade_type price amount (some "open")
            ⟨setOrder tbl coid o,
              [.orderCreated (trade_type == TradeType.BUY) now coid], true, none⟩
        else
          ⟨tbl, [], false, some ⟨.nameError, "name trade_side is not defined"⟩⟩

/-- Result of a `_create_order` run. `internalExc` is the exception the try
body raised that the `except Exception` handler absorbed (if any);
`outcome` is `.error e` only when the exception escapes (task cancellation). -/
structure CreateResult where
  table : OrderTable
  events : List MarketEvt
  issuedHttp : Bool
  internalExc : Option PyExc
  outcome : Except PyExc Unit

/-- `_create_order` (zebpay_exchange.py lines 522-610): try body plus the
`except asyncio.CancelledError` (re-raise) and `except Exception` (log, emit
`MarketOrderFailureEvent`, `stop_tracking_order`) clauses. -/
def _create_order (rules : RuleTable) (tbl : OrderTable) (now : ℚ)
    (trade_type : TradeType) (coid pair : String) (amount0 : ℚ) (order_type : OrderType)
    (price0 : ℚ) (quantAmount quantPrice : ℚ → ℚ) (api : CreateApiOutcome) : CreateResult :=
  let b := _create_order_body rules tbl now trade_type coid pair amount0 order_type price0
    quantAmount quantPrice api
  match b.raised with
  | none => ⟨b.table, b.events, b.issuedHttp, none, .ok ()⟩
  | some e =>
    if e.cls.isInstance .cancelledError then
      ⟨b.table, b.events, b.issuedHttp, none, .error e⟩
    else if e.cls.isInstance .exception then
      ⟨stop_tracking_order b.table coid, b.events ++ [.orderFailure now coid order_type],
        b.issuedHttp, some e, .ok ()⟩
    else
      ⟨b.table, b.events, b.issuedHttp, none, .error e⟩

/-- C6: because the maximum-size guard is written `amount < max_order_size`,
every limit order whose quantized amount lies in the normal valid range
(at least the minimum, strictly below the maximum) raises `ValueError` inside
the try body before any HTTP request is issued; the handler emits exactly one
`MarketOrderFailureEvent` and the order is never tracked. -/
theorem C6_create_order_rejects_valid_size_range (rules : RuleTable) (tbl : OrderTable)
    (now : ℚ) (trade_type : TradeType) (coid pair : String) (amount0 price0 : ℚ)
    (order_type : OrderType) (quantAmount quantPrice : ℚ → ℚ) (api : CreateApiOutcome)
    (trading_rule : TradingRule)
    (hrule : lookupRule rules pair = some trading_rule)
    (hlim : order_type.is_limit_type = true)
    (hmin : trading_rule.min_order_size ≤ quantAmount amount0)
    (hmax : quantAmount amount0 < trading_rule.max_order_size) :
    (_create_order_body rules tbl now trade_type coid pair amount0 order_type price0
        quantAmount quantPrice api).raised =
      some ⟨.valueError, "Buy order amount is higher than the maximum order size"⟩ ∧
    (_create_order rules tbl now trade_type coid pair amount0 order_type price0
        quantAmount quantPrice api).issuedHttp = false ∧
    (_create_order rules tbl now trade_type coid pair amount0 order_type price0
        quantAmount quantPrice api).events = [.orderFailure now coid order_type] ∧
    lookupOrder (_create_order rules tbl now trade_type coid pair amount0 order_type price0
        quantAmount quantPrice api).table coid = none := by
  have hnmin : ¬ (quantAmount amount0 < trading_rule.min_order_size) := not_lt.mpr hmin
  have hbody : _create_order_body rules tbl now trade_type coid pair amount0 order_type price0
      quantAmount quantPrice api =
      ⟨tbl, [], false, some ⟨.valueError, "Buy order amount is higher than the maximum order size"⟩⟩ := by
    simp [_create_order_body, hrule, hlim, hnmin, hmax]
  have hcc : PyClass.isInstance .valueError .cancelledError = false := rfl
  have hce : PyClass.isInstance .valueError .exception = true := rfl
  refine ⟨by rw [hbody], ?_, ?_, ?_⟩ <;>
    simp [_create_order, hbody, hcc, hce, lookupOrder_stop_tracking]

/-- C6 witness: a concrete buy limit order of quantized amount 5 against a rule
with minimum 1 and maximum 100 is rejected with a failure event and no HTTP
request. -/
theorem C6_create_order_rejects_valid_size_range_witness :
    (_create_order [("BTC-AUD", ⟨"BTC-AUD", 1, 100, 1/100, 1/100⟩)] [] 9
        TradeType.BUY "HBOT-B-BTC-AUD-3" "BTC-AUD" 5 OrderType.LIMIT 50
        id id (.ok (some "ex77"))).issuedHttp = false ∧
    (_create_order [("BTC-AUD", ⟨"BTC-AUD", 1, 100, 1/100, 1/100⟩)] [] 9
        TradeType.BUY "HBOT-B-BTC-AUD-3" "BTC-AUD" 5 OrderType.LIMIT 50
        id id (.ok (some "ex77"))).events =
      [.orderFailure 9 "HBOT-B-BTC-AUD-3" OrderType.LIMIT] := by
  have h := C6_create_order_rejects_valid_size_range
    [("BTC-AUD", ⟨"BTC-AUD", 1, 100, 1/100, 1/100⟩)] [] 9 TradeType.BUY
    "HBOT-B-BTC-AUD-3" "BTC-AUD" 5 50 OrderType.LIMIT id id (.ok (some "ex77"))
    ⟨"BTC-AUD", 1, 100, 1/100, 1/100⟩ rfl rfl (by norm_num) (by norm_num)
  exact ⟨h.2.1, h.2.2.1⟩

/-- An order-status dictionary as consumed by `_process_order_message`
(REST shape uses `clientOrderId`/`status`, WS shape uses `c`/`X`). -/
structure OrderStatusMsg where
  c : Option String
  clientOrderId : Option String
  X : Option String
  status : Option String
  deriving DecidableEq

/-- `order_msg["c"] if "c" in order_msg else order_msg.get("clientOrderId")`. -/
def OrderStatusMsg.getC (m : OrderStatusMsg) : Option String :=
  if m.c.isSome then m.c else m.clientOrderId

/-- `order_msg["X"] if "X" in order_msg else order_msg.get("status")`. -/
def OrderStatusMsg.getStatus (m : OrderStatusMsg) : Option String :=
  if m.X.isSome then m.X else m.status

/-- `_process_order_message` (zebpay_exchange.py lines 738-768): returns when
the client order id is unknown; otherwise unconditionally overwrites
`tracked_order.last_state` with the message's status (there is no terminal-state
guard), then emits a cancellation or failure event and stops tracking only for
the `is_cancelled` / `is_failure` vocabularies. -/
def _process_order_message (tbl : OrderTable) (now : ℚ) (m : OrderStatusMsg) :
    OrderTable × List MarketEvt :=
  match m.getC with
  | none => (tbl, [])
  | some client_order_id =>
    match lookupOrder tbl client_order_id with
    | none => (tbl, [])
    | some tracked_order =>
      let tracked_order2 := { tracked_order with last_state := m.getStatus }
      let tbl2 := setOrder tbl client_order_id tracked_order2
      if tracked_order2.is_cancelled then
        (stop_tracking_order tbl2 client_order_id,
          [.orderCancelled now client_order_id tracked_order2.exchange_order_id])
      else if tracked_order2.is_failure then
        (stop_tracking_order tbl2 client_order_id,
          [.orderFailure now client_order_id tracked_order2.order_type])
      else (tbl2, [])

/-- C5 counterexample: a tracked order that is already terminal
(`last_state = "filled"`, hence `is_done`) receives a further status update
`"open"` through `_process_order_message`, and its lifecycle state is
overwritten — terminal states are not sticky for orders still in the table. -/
theorem C5_counterexample_terminal_state_mutated :
    (ZebpayInFlightOrder.init "X1" (some "e1") "BTC-AUD" OrderType.LIMIT TradeType.BUY
      1 2 (some "filled")).is_done = true ∧
    lookupOrder (_process_order_message
        [("X1", ZebpayInFlightOrder.init "X1" (some "e1") "BTC-AUD" OrderType.LIMIT
          TradeType.BUY 1 2 (some "filled"))]
        3 ⟨some "X1", none, some "open", none⟩).1 "X1" =
      some { ZebpayInFlightOrder.init "X1" (some "e1") "BTC-AUD" OrderType.LIMIT
        TradeType.BUY 1 2 (some "filled") with last_state := some "open" } ∧
    (some "open" : Option String) ≠ some "filled" :=
  ⟨rfl, rfl, by decide⟩

/-- C5 amended: `_process_order_message` never mutates or emits for an order
absent from the in-flight table (which is how terminal orders, being
untracked, are actually shielded); but for any order still in the table —
terminal or not — it unconditionally overwrites `last_state` with the
message's status, removing the order (with one event) only when the new state
is `"cancelled"` or `"rejected"`. -/
theorem C5_amended_status_update_behavior (tbl : OrderTable) (now : ℚ) (m : OrderStatusMsg) :
    (m.getC = none → _process_order_message tbl now m = (tbl, [])) ∧
    (∀ coid, m.getC = some coid → lookupOrder tbl coid = none →
      _process_order_message tbl now m = (tbl, [])) ∧
    (∀ coid tracked_order, m.getC = some coid → lookupOrder tbl coid = some tracked_order →
      lookupOrder (_process_order_message tbl now m).1 coid =
        (if m.getStatus == some "cancelled" || m.getStatus == some "rejected" then none
         else some { tracked_order with last_state := m.getStatus })) := by
  refine ⟨?_, ?_, ?_⟩
  · intro h; simp [_process_order_message, h]
  · intro coid h hl; simp [_process_order_message, h, hl]
  · intro coid tracked_order h hl
    simp only [_process_order_message, h, hl]
    by_cases hc : m.getStatus = some "cancelled"
    · simp [ZebpayInFlightOrder.is_cancelled, hc, lookupOrder_stop_tracking]
    · by_cases hr : m.getStatus = some "rejected"
      · simp [ZebpayInFlightOrder.is_cancelled, ZebpayInFlightOrder.is_failure, hc, hr,
          lookupOrder_stop_tracking]
      · simp [ZebpayInFlightOrder.is_cancelled, ZebpayInFlightOrder.is_failure, hc, hr,
          lookupOrder_setOrder]

/-- C5 amended witness: the concrete terminal order of the counterexample is
overwritten to `"open"` and stays tracked. -/
theorem C5_amended_status_update_witness :
    lookupOrder (_process_order_message
        [("X1", ZebpayInFlightOrder.init "X1" (some "e1") "BTC-AUD" OrderType.LIMIT
          TradeType.BUY 1 2 (some "filled"))]
        3 ⟨some "X1", none, some "open", none⟩).1 "X1" =
      some { ZebpayInFlightOrder.init "X1" (some "e1") "BTC-AUD" OrderType.LIMIT
        TradeType.BUY 1 2 (some "filled") with last_state := some "open" } := by
  have h := (C5_amended_status_update_behavior
    [("X1", ZebpayInFlightOrder.init "X1" (some "e1") "BTC-AUD" OrderType.LIMIT
      TradeType.BUY 1 2 (some "filled"))]
    3 ⟨some "X1", none, some "open", none⟩).2.2 "X1"
    (ZebpayInFlightOrder.init "X1" (some "e1") "BTC-AUD" OrderType.LIMIT
      TradeType.BUY 1 2 (some "filled")) rfl rfl
  simpa using h

/-- An order-update dictionary as consumed by `_process_fill_message`
(WS shape uses `c`/`F`, REST shape uses `clientOrderId`/`fills`). -/
structure OrderUpdateMsg where
  c : Option String
  clientOrderId : Option String
  F : Option (List FillMsg)
  fills : Option (List FillMsg)
  deriving DecidableEq

/-- `update_msg["c"] if "c" in update_msg else update_msg.get("clientOrderId")`. -/
def OrderUpdateMsg.getC (m : OrderUpdateMsg) : Option String :=
  if m.c.isSome then m.c else m.clientOrderId

/-- Line 781, `if update_msg.get("F") or update_msg.get("fills") is not None:`
(Python truthiness of the `F` list, or mere key presence of `fills`). -/
def OrderUpdateMsg.fillsGuard (m : OrderUpdateMsg) : Bool :=
  (match m.F with
   | some l => !l.isEmpty
   | none => false) || m.fills.isSome

/-- Line 782, `update_msg["F"] if "F" in update_msg else update_msg.get("fills")`
(key presence of `F` decides which list is iterated). -/
def OrderUpdateMsg.iterFills (m : OrderUpdateMsg) : List FillMsg :=
  if m.F.isSome then m.F.getD [] else m.fills.getD []

/-- Outcome of the fill loop of `_process_fill_message` (lines 782-801):
`earlyReturn` models `if not updated: return` (a duplicate fill id returns
from the whole function), `done` models falling off the loop, `raisedE`
models a `decimal.InvalidOperation` from a malformed fill. -/
inductive FillLoopRes where
  | earlyReturn (o : ZebpayInFlightOrder) (evs : List MarketEvt)
  | done (o : ZebpayInFlightOrder) (evs : List MarketEvt)
  | raisedE (o : ZebpayInFlightOrder) (evs : List MarketEvt) (e : PyExc)

/-- The fill loop of `_process_fill_message`: applies `update_with_fill_update`
to each fill, emitting one `OrderFilled` event per newly-applied fill. -/
def processFillsLoop (now : ℚ) (o : ZebpayInFlightOrder) (evs : List MarketEvt) :
    List FillMsg → FillLoopRes
  | [] => .done o evs
  | fm :: rest =>
    match o.update_with_fill_update fm with
    | (o2, none) => .raisedE o2 evs ⟨.invalidOperation, "Decimal conversion of None"⟩
    | (o2, some false) => .earlyReturn o2 evs
    | (o2, some true) =>
      match fm.getP, fm.getQ, fm.getF with
      | some p, some q, some _ =>
        processFillsLoop now o2 (evs ++ [.orderFilled now o2.client_order_id p q]) rest
      | _, _, _ => .raisedE o2 evs ⟨.invalidOperation, "Decimal conversion of None"⟩

/-- `_process_fill_message` (zebpay_exchange.py lines 770-823).  Result is the
updated table, the events emitted, and the exception escaping the call (if
any).  After the fill loop falls through, line 802 evaluates
`math.isclose(..., rel_tol=NORMALIZED_PRECISION)`; the name
`NORMALIZED_PRECISION` is neither defined in zebpay_exchange.py nor among its
imports, so the completion check always raises `NameError` and the
completion-transition code of lines 803-823 (set `last_state = "filled"`,
emit the completed event, stop tracking) is unreachable. -/
def _process_fill_message (tbl : OrderTable) (now : ℚ) (m : OrderUpdateMsg) :
    OrderTable × List MarketEvt × Option PyExc :=
  match m.getC with
  | none => (tbl, [], none)
  | some client_order_id =>
    match lookupOrder tbl client_order_id with
    | none => (tbl, [], none)
    | some tracked_order =>
      let loopRes := if m.fillsGuard then processFillsLoop now tracked_order [] m.iterFills
                     else .done tracked_order []
      match loopRes with
      | .earlyReturn o2 evs => (setOrder tbl client_order_id o2, evs, none)
      | .raisedE o2 evs e => (setOrder tbl client_order_id o2, evs, some e)
      | .done o2 evs =>
        (setOrder tbl client_order_id o2, evs,
          some ⟨.nameError, "name NORMALIZED_PRECISION is not defined"⟩)

/-- C1: evaluated at the failing input — a tracked buy order for amount 10 and
a fill update that brings its cumulative executed base amount to exactly 10 —
`_process_fill_message` emits the per-fill event but then raises `NameError`
(the undefined `NORMALIZED_PRECISION` at line 802) instead of transitioning
the order to Filled: no completion event is emitted, the order stays tracked,
and its state remains "open". -/
theorem C1_process_fill_message_completion_raises_nameerror :
    (_process_fill_message
        [("B1", ZebpayInFlightOrder.init "B1" (some "e9") "BTC-AUD" OrderType.LIMIT
          TradeType.BUY 1 10 (some "open"))]
        5 ⟨some "B1", none,
           some [⟨some "f1", some 10, none, some 1, none, some 0, none, some "AUD", none⟩],
           none⟩).2.1 = [.orderFilled 5 "B1" 1 10] ∧
    (_process_fill_message
        [("B1", ZebpayInFlightOrder.init "B1" (some "e9") "BTC-AUD" OrderType.LIMIT
          TradeType.BUY 1 10 (some "open"))]
        5 ⟨some "B1", none,
           some [⟨some "f1", some 10, none, some 1, none, some 0, none, some "AUD", none⟩],
           none⟩).2.2 = some ⟨.nameError, "name NORMALIZED_PRECISION is not defined"⟩ ∧
    ((_process_fill_message
        [("B1", ZebpayInFlightOrder.init "B1" (some "e9") "BTC-AUD" OrderType.LIMIT
          TradeType.BUY 1 10 (some "open"))]
        5 ⟨some "B1", none,
           some [⟨some "f1", some 10, none, some 1, none, some 0, none, some "AUD", none⟩],
           none⟩).1.map (fun kv => (kv.1, kv.2.last_state, kv.2.executed_amount_base))) =
      [("B1", some "open", 10)] :=
  ⟨rfl, rfl, by
    norm_num [_process_fill_message, OrderUpdateMsg.getC, lookupOrder,
      OrderUpdateMsg.fillsGuard, OrderUpdateMsg.iterFills, processFillsLoop,
      ZebpayInFlightOrder.update_with_fill_update, FillMsg.getQ, FillMsg.getP, FillMsg.getF,
      FillMsg.getA, feeAssetFalsy, setOrder, ZebpayInFlightOrder.init]⟩

/-- The flat persisted record for one in-flight order.
Modelled from the spec: `InFlightOrderBase.to_json` is host-framework code
not under `src/`; the spec (§6, Persisted state layout) gives the flat record
{exchange order id, instrument, side, type, price, amount, executed
base/quote, fee asset/amount, last state}, which matches exactly the keys
`ZebpayInFlightOrder.from_json` reads back.  Note the layout has no field for
the applied-fill id set. -/
structure OrderJson where
  client_order_id : String
  exchange_order_id : Option String
  trading_pair : String
  order_type : OrderType
  trade_type : TradeType
  price : ℚ
  amount : ℚ
  executed_amount_base : ℚ
  executed_amount_quote : ℚ
  fee_asset : Option String
  fee_paid : ℚ
  last_state : Option String
  deriving DecidableEq

/-- Modelled from the spec: serialization writes each persisted field from the
order's current attributes (see `OrderJson`). -/
def ZebpayInFlightOrder.to_json (o : ZebpayInFlightOrder) : OrderJson :=
  { client_order_id := o.client_order_id
    exchange_order_id := o.exchange_order_id
    trading_pair := o.trading_pair
    order_type := o.order_type
    trade_type := o.trade_type
    price := o.price
    amount := o.amount
    executed_amount_base := o.executed_amount_base
    executed_amount_quote := o.executed_amount_quote
    fee_asset := o.fee_asset
    fee_paid := o.fee_paid
    last_state := o.last_state }

/-- `from_json` (zebpay_in_flight_order.py lines 57-78): rebuilds the order
through the constructor (so `fill_id_set` is the fresh empty set) and then
restores the executed amounts, fee fields and `last_state`.  Nothing ever
repopulates `fill_id_set`. -/
def ZebpayInFlightOrder.from_json (data : OrderJson) : ZebpayInFlightOrder :=
  let result := ZebpayInFlightOrder.init data.client_order_id data.exchange_order_id
    data.trading_pair data.order_type data.trade_type data.price data.amount data.last_state
  { result with
    executed_amount_base := data.executed_amount_base
    executed_amount_quote := data.executed_amount_quote
    fee_asset := data.fee_asset
    fee_paid := data.fee_paid
    last_state := data.last_state }

/-- `tracking_states` (zebpay_exchange.py lines 152-161): the persisted
snapshot keeps exactly the tracked orders for which `is_done` is false. -/
def tracking_states (tbl : OrderTable) : List (String × OrderJson) :=
  (tbl.filter (fun kv => !kv.2.is_done)).map (fun kv => (kv.1, kv.2.to_json))

/-- `restore_tracking_states` (zebpay_exchange.py lines 171-180):
`self._in_flight_orders.update({key: from_json(value), ...})`. -/
def restore_tracking_states (tbl : OrderTable) (saved : List (String × OrderJson)) :
    OrderTable :=
  saved.foldl (fun t kv => setOrder t kv.1 (ZebpayInFlightOrder.from_json kv.2)) tbl

/-- C7: the `tracking_states` snapshot holds exactly the serialized records of
the tracked orders that are not terminal, where terminal is the `is_done`
vocabulary — `last_state` equal to "filled", "canceled" (the connector's
spelling of cancelled) or "rejected" (its failure vocabulary). -/
theorem C7_tracking_states_exactly_non_terminal (tbl : OrderTable) (k : String) (j : OrderJson) :
    (((k, j) ∈ tracking_states tbl) ↔
      ∃ o : ZebpayInFlightOrder, (k, o) ∈ tbl ∧ o.is_done = false ∧ o.to_json = j) ∧
    (∀ o : ZebpayInFlightOrder, o.is_done = true ↔
      (o.last_state = some "filled" ∨ o.last_state = some "canceled"
        ∨ o.last_state = some "rejected")) := by
  constructor
  · simp only [tracking_states, List.mem_map, List.mem_filter]
    constructor
    · rintro ⟨⟨k2, o⟩, ⟨hmem, hnd⟩, heq⟩
      rw [Prod.mk.injEq] at heq
      refine ⟨o, heq.1 ▸ hmem, ?_, heq.2⟩
      simpa using hnd
    · rintro ⟨o, hmem, hnd, rfl⟩
      exact ⟨(k, o), ⟨hmem, by simp [hnd]⟩, rfl⟩
  · intro o
    simp [ZebpayInFlightOrder.is_done, or_assoc]

theorem update_with_fill_update_fresh (o : ZebpayInFlightOrder) (m : FillMsg)
    (q p f : ℚ) (hq : m.getQ = some q) (hp : m.getP = some p) (hf : m.getF = some f)
    (hmem : m.i ∉ o.fill_id_set) :
    (o.update_with_fill_update m).2 = some true ∧
    (o.update_with_fill_update m).1.executed_amount_base = o.executed_amount_base + q := by
  simp only [ZebpayInFlightOrder.update_with_fill_update, hmem, if_neg, hq, hp, hf]
  by_cases hfa : feeAssetFalsy o.fee_asset <;> simp [hfa]

/-- C8: the persistence round trip forgets applied fills.  For an order with a
previously-applied fill id, serializing and restoring it yields an order with
an empty `fill_id_set` and the same cumulative executed base amount, and
re-applying the very same fill to the restored order returns `True` and adds
its quantity again (whereas the original order correctly rejects it). -/
theorem C8_round_trip_forgets_fill_ids (o : ZebpayInFlightOrder) (k : String) (m : FillMsg)
    (q p f : ℚ) (hq : m.getQ = some q) (hp : m.getP = some p) (hf : m.getF = some f)
    (happlied : m.i ∈ o.fill_id_set) :
    o.update_with_fill_update m = (o, some false) ∧
    lookupOrder (restore_tracking_states [] [(k, o.to_json)]) k =
      some (ZebpayInFlightOrder.from_json o.to_json) ∧
    (ZebpayInFlightOrder.from_json o.to_json).fill_id_set = [] ∧
    (ZebpayInFlightOrder.from_json o.to_json).executed_amount_base = o.executed_amount_base ∧
    ((ZebpayInFlightOrder.from_json o.to_json).update_with_fill_update m).2 = some true ∧
    ((ZebpayInFlightOrder.from_json o.to_json).update_with_fill_update m).1.executed_amount_base
      = o.executed_amount_base + q := by
  have hne : m.i ∉ (ZebpayInFlightOrder.from_json o.to_json).fill_id_set := by
    simp [ZebpayInFlightOrder.from_json, ZebpayInFlightOrder.init]
  have h := update_with_fill_update_fresh (ZebpayInFlightOrder.from_json o.to_json)
    m q p f hq hp hf hne
  refine ⟨?_, ?_, rfl, rfl, h.1, ?_⟩
  · simp [ZebpayInFlightOrder.update_with_fill_update, happlied]
  · simp [restore_tracking_states, setOrder, lookupOrder]
  · simpa [ZebpayInFlightOrder.from_json, ZebpayInFlightOrder.to_json,
      ZebpayInFlightOrder.init] using h.2

/-- C8 witness: a concrete order that already applied fill "f1" (quantity 4)
is serialized and restored; the restored order accepts "f1" again and its
executed base amount goes from 6 back up by 4. -/
theorem C8_round_trip_forgets_fill_ids_witness :
    ((ZebpayInFlightOrder.from_json
        ({ ZebpayInFlightOrder.init "K1" (some "e2") "BTC-AUD" OrderType.LIMIT TradeType.BUY
            2 10 (some "open") with
          executed_amount_base := 6, fill_id_set := [some "f1"] }).to_json).update_with_fill_update
      ⟨some "f1", some 4, none, some 2, none, some 1, none, some "AUD", none⟩).2 = some true ∧
    ((ZebpayInFlightOrder.from_json
        ({ ZebpayInFlightOrder.init "K1" (some "e2") "BTC-AUD" OrderType.LIMIT TradeType.BUY
            2 10 (some "open") with
          executed_amount_base := 6, fill_id_set := [some "f1"] }).to_json).update_with_fill_update
      ⟨some "f1", some 4, none, some 2, none, some 1, none, some "AUD", none⟩).1.executed_amount_base
      = 6 + 4 := by
  have h := C8_round_trip_forgets_fill_ids
    { ZebpayInFlightOrder.init "K1" (some "e2") "BTC-AUD" OrderType.LIMIT TradeType.BUY
        2 10 (some "open") with
      executed_amount_base := 6, fill_id_set := [some "f1"] }
    "K1" ⟨some "f1", some 4, none, some 2, none, some 1, none, some "AUD", none⟩
    4 2 1 rfl rfl rfl (by decide)
  exact ⟨h.2.2.2.2.1, h.2.2.2.2.2⟩

/-- Order book message variants (host `OrderBookMessageType`). -/
inductive OrderBookMessageType where
  | snapshot
  | diff
  | trade
  deriving DecidableEq

/-- The content dictionary fields read by `ZebpayOrderBookMessage`:
`content["data"]["t"]` (an epoch-milliseconds timestamp), `content["trans_id"]`
and `content["pair"]`; each may be absent. -/
structure OBContent where
  data_t : Option ℚ
  trans_id : Option ℤ
  pair : Option String
  deriving DecidableEq

/-- A constructed `ZebpayOrderBookMessage`
(zebpay_order_book_message.py): message type, raw content, and the timestamp
in epoch seconds (a Python float, modelled exactly in `ℚ`). -/
structure ZebpayOrderBookMessage where
  type : OrderBookMessageType
  content : OBContent
  timestamp : ℚ
  deriving DecidableEq

/-- Python `int()` applied to a non-negative-or-negative rational: truncation
toward zero, which is exactly Lean `Int` division of numerator by denominator. -/
def pyInt (q : ℚ) : ℤ := q.num / (q.den : ℤ)

/-- `ZebpayOrderBookMessage.__new__` (lines 18-32): an explicit timestamp is
used as given; with `timestamp=None` a snapshot raises `ValueError`, and other
types fall back to the embedded `content["data"]["t"]` milliseconds value,
`pd.Timestamp(t, unit="ms").timestamp()` = `t / 1000` seconds. -/
def ZebpayOrderBookMessage.mkNew (t : OrderBookMessageType) (c : OBContent)
    (ts : Option ℚ) : Except PyExc ZebpayOrderBookMessage :=
  match ts with
  | some v => .ok ⟨t, c, v⟩
  | none =>
    if t = .snapshot then
      .error ⟨.valueError, "timestamp must not be None when initializing snapshot messages."⟩
    else
      match c.data_t with
      | some tms => .ok ⟨t, c, tms / 1000⟩
      | none => .error ⟨.keyError, "t"⟩

/-- `update_id` (lines 34-41): `int(self.timestamp)` for snapshots and diffs,
`-1` otherwise. -/
def ZebpayOrderBookMessage.update_id (m : ZebpayOrderBookMessage) : ℤ :=
  match m.type with
  | .snapshot => pyInt m.timestamp
  | .diff => pyInt m.timestamp
  | .trade => -1

/-- `trade_id` (lines 43-61): `int(self.content["trans_id"])` for trades
(raising `KeyError` when the key is absent), `-1` otherwise. -/
def ZebpayOrderBookMessage.trade_id (m : ZebpayOrderBookMessage) : Except PyExc ℤ :=
  match m.type with
  | .trade =>
    match m.content.trans_id with
    | some n => .ok n
    | none => .error ⟨.keyError, "trans_id"⟩
  | _ => .ok (-1)

/-- C9: for Snapshot and Diff messages the ordering token `update_id` is the
integer part of the message timestamp (no exchange-assigned sequence number
enters the computation); for Trade messages `update_id` is `-1` and `trade_id`
is the integer `trans_id` field; and when no explicit timestamp is supplied,
the timestamp itself is derived from the embedded `content["data"]["t"]`
milliseconds value. -/
theorem C9_update_id_from_timestamp (m : ZebpayOrderBookMessage)
    (t : OrderBookMessageType) (c : OBContent) (tms : ℚ) :
    ((m.type = .snapshot ∨ m.type = .diff) → m.update_id = pyInt m.timestamp) ∧
    (m.type = .trade → m.update_id = -1) ∧
    (m.type = .trade → ∀ n : ℤ, m.content.trans_id = some n → m.trade_id = .ok n) ∧
    (t ≠ .snapshot → c.data_t = some tms →
      ZebpayOrderBookMessage.mkNew t c none = .ok ⟨t, c, tms / 1000⟩) := by
  refine ⟨?_, ?_, ?_, ?_⟩
  · rintro (h | h) <;> simp [ZebpayOrderBookMessage.update_id, h]
  · intro h; simp [ZebpayOrderBookMessage.update_id, h]
  · intro h n hn; simp [ZebpayOrderBookMessage.trade_id, h, hn]
  · intro ht hc; simp [ZebpayOrderBookMessage.mkNew, ht, hc]

/-- C9 witness: a concrete trade message has `update_id = -1` and
`trade_id = 13`, and a diff message built without an explicit timestamp gets
its timestamp (2 seconds) from the embedded 2000 ms value, with
`update_id = int(timestamp)`. -/
theorem C9_update_id_from_timestamp_witness :
    (ZebpayOrderBookMessage.mk .trade ⟨none, some 13, none⟩ 99).update_id = -1 ∧
    (ZebpayOrderBookMessage.mk .trade ⟨none, some 13, none⟩ 99).trade_id = .ok 13 ∧
    ZebpayOrderBookMessage.mkNew .diff ⟨some 2000, none, none⟩ none =
      .ok (ZebpayOrderBookMessage.mk .diff ⟨some 2000, none, none⟩ 2) ∧
    (ZebpayOrderBookMessage.mk .diff ⟨some 2000, none, none⟩ 2).update_id = pyInt 2 := by
  have ht := C9_update_id_from_timestamp
    (ZebpayOrderBookMessage.mk .trade ⟨none, some 13, none⟩ 99)
    .diff ⟨some 2000, none, none⟩ 2000
  have hd := C9_update_id_from_timestamp
    (ZebpayOrderBookMessage.mk .diff ⟨some 2000, none, none⟩ 2)
    .diff ⟨some 2000, none, none⟩ 2000
  refine ⟨ht.2.1 rfl, ht.2.2.1 rfl 13 rfl, ?_, hd.1 (Or.inr rfl)⟩
  rw [ht.2.2.2 (by decide) rfl]
  norm_num

/-- The action one iteration of a retry loop takes after its try body raises:
sleep-and-retry, or let the exception escape. -/
inductive LoopAction where
  | retryAfter (seconds : ℚ)
  | reraise (e : PyExc)
  deriving DecidableEq

/-- `listen_for_trades` except chain (zebpay_api_order_book_data_source.py
lines 296-305): `except asyncio.CancelledError: raise`, then
`except Exception:` log and sleep 30 seconds before reconnecting. -/
def listen_for_trades_handler (e : PyExc) : LoopAction :=
  if e.cls.isInstance .cancelledError then .reraise e
  else if e.cls.isInstance .exception then .retryAfter 30
  else .reraise e

/-- `listen_for_order_book_diffs` except chain (lines 353-362), same shape
with a 30 second backoff. -/
def listen_for_order_book_diffs_handler (e : PyExc) : LoopAction :=
  if e.cls.isInstance .cancelledError then .reraise e
  else if e.cls.isInstance .exception then .retryAfter 30
  else .reraise e

/-- Outer `listen_for_order_book_snapshots` except chain (lines 398-402),
5 second backoff. -/
def listen_for_order_book_snapshots_handler (e : PyExc) : LoopAction :=
  if e.cls.isInstance .cancelledError then .reraise e
  else if e.cls.isInstance .exception then .retryAfter 5
  else .reraise e

/-- `_status_polling_loop` except chain (zebpay_exchange.py lines 664-672),
0.5 second backoff. -/
def _status_polling_loop_handler (e : PyExc) : LoopAction :=
  if e.cls.isInstance .cancelledError then .reraise e
  else if e.cls.isInstance .exception then .retryAfter (1/2)
  else .reraise e

/-- `_trading_rules_polling_loop` except chain (zebpay_exchange.py lines
255-262), 0.5 second backoff. -/
def _trading_rules_polling_loop_handler (e : PyExc) : LoopAction :=
  if e.cls.isInstance .cancelledError then .reraise e
  else if e.cls.isInstance .exception then .retryAfter (1/2)
  else .reraise e

/-- `_iter_user_event_queue` except chain (zebpay_exchange.py lines 938-948),
1 second backoff. -/
def _iter_user_event_queue_handler (e : PyExc) : LoopAction :=
  if e.cls.isInstance .cancelledError then .reraise e
  else if e.cls.isInstance .exception then .retryAfter 1
  else .reraise e

/-- `_user_stream_event_listener` inner except chain (zebpay_exchange.py lines
978-982), 5 second backoff. -/
def _user_stream_event_listener_handler (e : PyExc) : LoopAction :=
  if e.cls.isInstance .cancelledError then .reraise e
  else if e.cls.isInstance .exception then .retryAfter 5
  else .reraise e

/-- `fetch_trading_pairs` (zebpay_api_order_book_data_source.py lines 116-139):
the whole body sits in a bare `try: ... except Exception: pass` that returns
`[]` on any `Exception`; an exception outside the `Exception` subtree — in
particular `asyncio.CancelledError` under Python 3.8+ — propagates. -/
def fetch_trading_pairs_result (r : Except PyExc (List String)) :
    Except PyExc (List String) :=
  match r with
  | .ok pairs => .ok pairs
  | .error e => if e.cls.isInstance .exception then .ok [] else .error e

/-- C10: a task-cancellation error raised by the awaited call is re-raised by
every retry/except wrapper — the WebSocket listen loops, the polling loops,
the user-stream iterator, the trading-pair fetch, order cancellation (for a
tracked order whose delete call is cancelled) and order creation (for an
order that passes the size guards and whose create request is cancelled) —
never retried or converted into a normal return. -/
theorem C10_cancellation_always_reraised (e : PyExc) (he : e.cls = .cancelledError)
    (tbl : OrderTable) (now : ℚ) (coid : String) (tord : ZebpayInFlightOrder)
    (htr : lookupOrder tbl coid = some tord)
    (rules : RuleTable) (tbl2 : OrderTable) (coid2 pair : String) (amount0 price0 : ℚ)
    (order_type : OrderType) (qa qp : ℚ → ℚ) (trading_rule : TradingRule)
    (hrule : lookupRule rules pair = some trading_rule)
    (hlim : order_type.is_limit_type = true)
    (hmin : trading_rule.min_order_size ≤ qa amount0)
    (hmax : trading_rule.max_order_size ≤ qa amount0) :
    listen_for_trades_handler e = .reraise e ∧
    listen_for_order_book_diffs_handler e = .reraise e ∧
    listen_for_order_book_snapshots_handler e = .reraise e ∧
    _status_polling_loop_handler e = .reraise e ∧
    _trading_rules_polling_loop_handler e = .reraise e ∧
    _iter_user_event_queue_handler e = .reraise e ∧
    _user_stream_event_listener_handler e = .reraise e ∧
    fetch_trading_pairs_result (.error e) = .error e ∧
    (_execute_cancel tbl now coid (.raised e)).outcome = .error e ∧
    (_create_order rules tbl2 now TradeType.BUY coid2 pair amount0 order_type price0
      qa qp (.raised e)).outcome = .error e := by
  obtain ⟨cls, msg⟩ := e
  simp only at he
  subst he
  have hnmin : ¬ (qa amount0 < trading_rule.min_order_size) := not_lt.mpr hmin
  have hnmax : ¬ (qa amount0 < trading_rule.max_order_size) := not_lt.mpr hmax
  refine ⟨rfl, rfl, rfl, rfl, rfl, rfl, rfl, rfl, ?_, ?_⟩
  · simp only [_execute_cancel, htr]
    rfl
  · have hcc : PyClass.isInstance .cancelledError .cancelledError = true := rfl
    simp only [_create_order, _create_order_body, hrule, hlim, hnmin, hnmax]
    simp [TradeType.value, hcc]

/-- C10 witness: a concrete cancellation error is re-raised by the trades
listen loop, by `_execute_cancel` on a tracked order, and by `_create_order`
for a buy order of amount 200 that passes the size guards (rule minimum 1,
maximum 100). -/
theorem C10_cancellation_always_reraised_witness :
    listen_for_trades_handler ⟨.cancelledError, "task cancelled"⟩ =
      .reraise ⟨.cancelledError, "task cancelled"⟩ ∧
    (_execute_cancel
        [("A1", ZebpayInFlightOrder.init "A1" (some "e5") "BTC-AUD" OrderType.LIMIT
          TradeType.BUY 3 7 (some "open"))]
        11 "A1" (.raised ⟨.cancelledError, "task cancelled"⟩)).outcome =
      .error ⟨.cancelledError, "task cancelled"⟩ ∧
    (_create_order [("BTC-AUD", ⟨"BTC-AUD", 1, 100, 1/100, 1/100⟩)] [] 11
        TradeType.BUY "B7" "BTC-AUD" 200 OrderType.LIMIT 4 id id
        (.raised ⟨.cancelledError, "task cancelled"⟩)).outcome =
      .error ⟨.cancelledError, "task cancelled"⟩ := by
  have h := C10_cancellation_always_reraised ⟨.cancelledError, "task cancelled"⟩ rfl
    [("A1", ZebpayInFlightOrder.init "A1" (some "e5") "BTC-AUD" OrderType.LIMIT
      TradeType.BUY 3 7 (some "open"))]
    11 "A1"
    (ZebpayInFlightOrder.init "A1" (some "e5") "BTC-AUD" OrderType.LIMIT
      TradeType.BUY 3 7 (some "open"))
    rfl
    [("BTC-AUD", ⟨"BTC-AUD", 1, 100, 1/100, 1/100⟩)] [] "B7" "BTC-AUD" 200 4
    OrderType.LIMIT id id ⟨"BTC-AUD", 1, 100, 1/100, 1/100⟩
    rfl rfl (by norm_num) (by norm_num)
  exact ⟨h.1, h.2.2.2.2.2.2.2.2.1, h.2.2.2.2.2.2.2.2.2⟩
